import Mathlib

/-!
Verification of the Bybit trading-bot core: the trade-lifecycle state
machine (`core/state_manager.py`), the background position monitor
(`core/position_monitor.py`), the exchange-client helpers
(`core/exchange_client.py`) and the orchestration pipeline
(`gui/main_window.py`).  Python floats are modelled as rationals,
Python `datetime` values as their (non-empty) ISO strings, and Python
dicts by explicit record types holding exactly the keys the code uses.
-/

namespace Bybit

/-- ISO-8601 timestamp: a Python `datetime` is modelled by its `isoformat`
string, which is never empty. -/
def ISODate : Type := {s : String // s ≠ ""}

instance : DecidableEq ISODate := Subtype.instDecidableEq

/-- Python `datetime.isoformat()`. -/
def ISODate.isoformat (d : ISODate) : String := d.val

/-- Python `datetime.fromisoformat` restricted to the non-empty strings the
truthiness guard in `TradingConfig.from_dict` lets through. -/
def ISODate.fromisoformat (s : String) (h : s ≠ "") : ISODate := ⟨s, h⟩

/-- The `BotState` enum of `core/state_manager.py`. -/
inductive BotState where
  | idle
  | monitoring
  | closingPosition
  | converting
  | withdrawing
  | resetting
  | error
deriving DecidableEq, Repr

/-- The `.value` string of each `BotState` member. -/
def BotState.value : BotState → String
  | .idle => "idle"
  | .monitoring => "monitoring"
  | .closingPosition => "closing_position"
  | .converting => "converting"
  | .withdrawing => "withdrawing"
  | .resetting => "resetting"
  | .error => "error"

/-- The enum constructor `BotState(value)` used by `_load_state`:
looks a member up by its value, `none` when the lookup raises. -/
def BotState.ofValue (s : String) : Option BotState :=
  if s = "idle" then some .idle
  else if s = "monitoring" then some .monitoring
  else if s = "closing_position" then some .closingPosition
  else if s = "converting" then some .converting
  else if s = "withdrawing" then some .withdrawing
  else if s = "resetting" then some .resetting
  else if s = "error" then some .error
  else none

/-- The `TradingConfig` data structure of `core/state_manager.py`
(its eight constructor fields). -/
structure TradingConfig where
  symbol : String
  side : String
  quantity : ℚ
  leverage : ℤ
  margin_mode : String
  profit_threshold : ℚ
  entry_price : Option ℚ
  position_opened_at : Option ISODate
deriving DecidableEq

/-- The dictionary produced by `TradingConfig.to_dict` and consumed by
`TradingConfig.from_dict`; every field is optional because `from_dict`
reads each key with `kwargs.get(key, default)`.  `position_opened_at`
is carried as the serialized ISO string (`None` when absent). -/
structure ConfigDict where
  symbol : Option String
  side : Option String
  quantity : Option ℚ
  leverage : Option ℤ
  margin_mode : Option String
  profit_threshold : Option ℚ
  entry_price : Option ℚ
  position_opened_at : Option String
deriving DecidableEq

namespace TradingConfig

/-- Faithful translation of `TradingConfig.to_dict`. -/
def to_dict (c : TradingConfig) : ConfigDict :=
  { symbol := some c.symbol
    side := some c.side
    quantity := some c.quantity
    leverage := some c.leverage
    margin_mode := some c.margin_mode
    profit_threshold := some c.profit_threshold
    entry_price := c.entry_price
    position_opened_at := c.position_opened_at.map ISODate.isoformat }

/-- Faithful translation of `TradingConfig.from_dict` followed by
`TradingConfig.__init__`: each missing key falls back to the
constructor default, and `position_opened_at` is parsed with
`fromisoformat` only when the stored value is truthy (a non-empty
string). -/
def from_dict (d : ConfigDict) : TradingConfig :=
  { symbol := d.symbol.getD "BTC/USDT"
    side := d.side.getD "long"
    quantity := d.quantity.getD (1/100)
    leverage := d.leverage.getD 10
    margin_mode := d.margin_mode.getD "isolated"
    profit_threshold := d.profit_threshold.getD 50
    entry_price := d.entry_price
    position_opened_at :=
      match d.position_opened_at with
      | none => none
      | some s => if h : s = "" then none else some (ISODate.fromisoformat s h) }

/-- Faithful translation of `TradingConfig.reset`: clears the two dynamic
fields. -/
def reset (c : TradingConfig) : TradingConfig :=
  { c with entry_price := none, position_opened_at := none }

end TradingConfig

/-- A position snapshot as returned by the exchange gateway, holding the
keys `calculate_position_pnl`, `position_closed` and the monitor use. -/
structure Position where
  symbol : String
  side : String
  contracts : ℚ
  entryPrice : ℚ
deriving DecidableEq, Repr

/-- Result dict of a close order (`execute_profit_close`); opaque payload. -/
structure CloseData where
  raw : String
deriving DecidableEq, Repr

/-- Result dict of a conversion (`auto_convert_after_close`); opaque payload. -/
structure ConvData where
  raw : String
deriving DecidableEq, Repr

/-- Result dict of a withdrawal (`auto_withdraw_after_conversion`); opaque
payload. -/
structure WdData where
  raw : String
deriving DecidableEq, Repr

/-- The `last_closed_position` accumulator dict built by
`StateManager.position_closed` and extended by `conversion_completed`
and `withdrawal_completed`. -/
structure ClosedRecord where
  position : Position
  close : CloseData
  profit : ℚ
  closed_at : ISODate
  conversion : Option ConvData
  withdrawal : Option WdData
deriving DecidableEq

/-- The mutable fields of `StateManager` (`core/state_manager.py`).
`trade_history` holds `Option ClosedRecord` entries because
`withdrawal_completed` appends `self.last_closed_position` without a
null check.  `state_log` records every state set through `set_state`,
in order, modelling the persisted snapshot sequence. -/
structure StateManager where
  current_state : BotState
  trading_config : Option TradingConfig
  active_position : Option Position
  last_closed_position : Option ClosedRecord
  trade_history : List (Option ClosedRecord)
  state_log : List BotState
deriving DecidableEq

namespace StateManager

/-- A freshly constructed `StateManager` with no persisted state to load. -/
def init : StateManager :=
  { current_state := .idle
    trading_config := none
    active_position := none
    last_closed_position := none
    trade_history := []
    state_log := [] }

/-- Faithful translation of `StateManager.set_state`: assigns the new
state and persists, with no validation of the request. -/
def set_state (m : StateManager) (new_state : BotState) : StateManager :=
  { m with current_state := new_state, state_log := m.state_log ++ [new_state] }

/-- Faithful translation of `StateManager.can_open_position`. -/
def can_open_position (m : StateManager) : Bool :=
  [BotState.idle, BotState.resetting].contains m.current_state

/-- Faithful translation of `StateManager.position_closed`.  The first
statement merges `**self.active_position` into the closed-record dict,
which raises a `TypeError` when `active_position` is `None`; the raise
is modelled by `none`, and no field of the manager has been assigned at
that point. -/
def position_closed (m : StateManager) (close_data : CloseData) (profit : ℚ)
    (now : ISODate) : Option StateManager :=
  match m.active_position with
  | none => none
  | some ap =>
    let record : ClosedRecord :=
      { position := ap, close := close_data, profit := profit,
        closed_at := now, conversion := none, withdrawal := none }
    let m1 := { m with last_closed_position := some record }
    let m2 := { m1 with active_position := none }
    some (m2.set_state .converting)

/-- Faithful translation of `StateManager.conversion_completed`: attaches
the conversion result when a closed record is pending, then moves to
`WITHDRAWING`. -/
def conversion_completed (m : StateManager) (conversion_data : ConvData) :
    StateManager :=
  let attach : ClosedRecord → ClosedRecord :=
    fun r => { r with conversion := some conversion_data }
  let m1 := { m with last_closed_position := m.last_closed_position.map attach }
  m1.set_state .withdrawing

/-- Faithful translation of `StateManager.auto_reset`: sets `RESETTING`,
resets the config's dynamic fields, clears the pending closed record,
and sets `IDLE`. -/
def auto_reset (m : StateManager) : StateManager :=
  let m1 := m.set_state .resetting
  let m2 := { m1 with trading_config := m1.trading_config.map TradingConfig.reset }
  let m3 := { m2 with last_closed_position := none }
  m3.set_state .idle

/-- Faithful translation of `StateManager.withdrawal_completed`: attaches
the withdrawal result when a closed record is pending, appends
`last_closed_position` to `trade_history` unconditionally, then runs
`auto_reset`. -/
def withdrawal_completed (m : StateManager) (withdrawal_data : WdData) :
    StateManager :=
  let attach : ClosedRecord → ClosedRecord :=
    fun r => { r with withdrawal := some withdrawal_data }
  let m1 := { m with last_closed_position := m.last_closed_position.map attach }
  let m2 := { m1 with trade_history := m1.trade_history ++ [m1.last_closed_position] }
  m2.auto_reset

/-- Faithful translation of `StateManager.handle_error` (the error-log
write has no effect on the manager's fields). -/
def handle_error (m : StateManager) : StateManager :=
  m.set_state .error

end StateManager

/-- The transition table of spec §4.1, stated from the spec's words (for
comparison with `set_state`): reachability of a next state from a
current state by some event of the table. -/
def specTableAllows : BotState → BotState → Bool
  | .idle, .monitoring => true
  | .resetting, .monitoring => true
  | .monitoring, .closingPosition => true
  | .closingPosition, .converting => true
  | .converting, .withdrawing => true
  | .withdrawing, .resetting => true
  | .resetting, .idle => true
  | _, .error => true
  | .error, .monitoring => true
  | .error, .idle => true
  | _, _ => false

/-- Account balance as used by the exchange client: the `total` section is
an association list from asset to quantity, read with
`balance.get('total', {}).get(asset, 0)`. -/
structure Balance where
  total : List (String × ℚ)
deriving DecidableEq

/-- Python `balance.get('total', {}).get(asset, 0)`. -/
def Balance.totalOf (b : Balance) (asset : String) : ℚ :=
  match b.total.find? (fun p => p.1 = asset) with
  | some p => p.2
  | none => 0

namespace ExchangeClient

/-- Faithful translation of `ExchangeClient.get_open_positions` applied to
the list `fetch_positions` returned: keeps positions with
`float(pos.get('contracts', 0)) > 0`. -/
def get_open_positions (fetched : List Position) : List Position :=
  fetched.filter (fun pos => decide (0 < pos.contracts))

/-- Faithful translation of the arithmetic core of
`ExchangeClient.calculate_position_pnl`, with the ticker's last price
passed in: `(current-entry)*contracts` when `side == 'long'`, else
`(entry-current)*contracts`. -/
def calculate_position_pnl (position : Position) (current_price : ℚ) : ℚ :=
  if position.side = "long" then
    (current_price - position.entryPrice) * position.contracts
  else
    (position.entryPrice - current_price) * position.contracts

/-- Outcome of one call of the two Convert API endpoints used by
`convert_crypto`: the quote id returned by `getquote`, or the message of
the exception it raised. -/
inductive QuoteOutcome where
  | ok (quoteId : String)
  | exn (msg : String)
deriving DecidableEq, Repr

/-- Outcome of the `acceptquote` call: the conversion-result dict, or the
message of the exception it raised. -/
inductive AcceptOutcome where
  | ok (result : ConvData)
  | exn (msg : String)
deriving DecidableEq, Repr

/-- Faithful translation of `ExchangeClient.convert_crypto` over the two
endpoint outcomes: on either exception the `except` block only logs —
the `raise ExchangeError(...)` line is commented out in the source — so
the function falls through and returns `None`. -/
def convert_crypto (quote : QuoteOutcome) (accept : String → AcceptOutcome) :
    Option ConvData :=
  match quote with
  | .exn _ => none
  | .ok quoteId =>
    match accept quoteId with
    | .exn _ => none
    | .ok result => some result

end ExchangeClient

namespace PositionMonitor

/-- Faithful translation of the `check_liquidation` test on the fetched
balance and the client's open-position list: equity strictly below 1.0
and zero open positions. -/
def check_liquidation (balance : Balance) (fetched : List Position) : Bool :=
  let positions := ExchangeClient.get_open_positions fetched
  let total_equity := balance.totalOf "USDT"
  if total_equity < 1 ∧ positions.length = 0 then true else false

/-- What one iteration of `_monitor_loop` observes: the while-condition
read the stop flag as false, the position fetch raised (caught and
logged), no position was found, or a position and the market price used
to compute its PnL. -/
inductive PollOutcome where
  | stopped
  | fetchError
  | noPosition
  | found (position : Position) (price : ℚ)
deriving DecidableEq, Repr

/-- One callback invocation recorded by the monitor model: the arguments
passed to `on_profit_reached` and the value of `self.monitoring` at the
moment of the call. -/
structure Signal where
  position : Position
  pnl : ℚ
  monitoring_at_callback : Bool
deriving DecidableEq, Repr

/-- Faithful translation of `PositionMonitor._monitor_loop` over the finite
sequence of per-iteration observations of one session, returning the
callback invocations in order.  A `stopped` observation is the
while-condition seeing `self.monitoring == False`; on
`pnl >= threshold` the loop assigns `self.monitoring = False`, invokes
the callback, and breaks. -/
def monitor_loop (profit_threshold : ℚ) : List PollOutcome → List Signal
  | [] => []
  | outcome :: rest =>
    match outcome with
    | .stopped => []
    | .fetchError => monitor_loop profit_threshold rest
    | .noPosition => monitor_loop profit_threshold rest
    | .found position price =>
      let current_pnl := ExchangeClient.calculate_position_pnl position price
      if profit_threshold ≤ current_pnl then
        let monitoring := false
        [{ position := position, pnl := current_pnl,
           monitoring_at_callback := monitoring }]
      else
        monitor_loop profit_threshold rest

end PositionMonitor

namespace TradingBot

/-- Outcomes of the three fallible gateway steps of one run of the
`_on_profit_reached` pipeline in `gui/main_window.py`.  `none` for the
close order means `execute_profit_close` returned a falsy result;
`none` for conversion or withdrawal covers a failed, skipped or
exception-raising step (each is caught inside `_execute_conversion` /
`_execute_withdrawal`, which then skip the `*_completed` call). -/
structure PipelineInput where
  close_order : Option CloseData
  conversion_result : Option ConvData
  withdrawal_result : Option WdData
deriving DecidableEq

/-- Faithful translation of `TradingBot._on_profit_reached` together with
its `_execute_conversion` and `_execute_withdrawal` helpers, over the
step outcomes: set `CLOSING_POSITION`; if the close order is truthy,
run `position_closed` (a `TypeError` there propagates to the `except`
handler, which calls `handle_error`); call `conversion_completed` only
on a truthy conversion result; call `withdrawal_completed` only on a
truthy withdrawal result; finally call `auto_reset` unconditionally. -/
def on_profit_reached (m : StateManager) (profit : ℚ) (now : ISODate)
    (inp : PipelineInput) : StateManager :=
  let m1 := m.set_state .closingPosition
  match inp.close_order with
  | none => m1
  | some close_order =>
    match m1.position_closed close_order profit now with
    | none => m1.handle_error
    | some m2 =>
      let m3 := match inp.conversion_result with
        | some r => m2.conversion_completed r
        | none => m2
      let m4 := match inp.withdrawal_result with
        | some r => m3.withdrawal_completed r
        | none => m3
      m4.auto_reset

end TradingBot

/-- Sample timestamp used by concrete evaluations. -/
def sampleNow : ISODate := ⟨"2024-01-01T00:00:00", by decide⟩

/-- Sample open position: long 1 contract from entry 50. -/
def samplePosition : Position :=
  { symbol := "BTC/USDT", side := "long", contracts := 1, entryPrice := 50 }

/-- Sample close-order result. -/
def sampleClose : CloseData := ⟨"close-order"⟩

/-- Sample conversion result. -/
def sampleConv : ConvData := ⟨"conversion"⟩

/-- Sample withdrawal result. -/
def sampleWd : WdData := ⟨"withdrawal"⟩

/-- Sample trading configuration with both dynamic fields set. -/
def sampleConfig : TradingConfig :=
  { symbol := "BTC/USDT", side := "long", quantity := 1/100, leverage := 10,
    margin_mode := "isolated", profit_threshold := 50, entry_price := some 50,
    position_opened_at := some sampleNow }

/-- Sample manager mid-cycle: monitoring an open position. -/
def sampleManager : StateManager :=
  { current_state := .monitoring, trading_config := some sampleConfig,
    active_position := some samplePosition, last_closed_position := none,
    trade_history := [], state_log := [] }

/-- Sample balance with exactly 1 USDT of total equity. -/
def sampleBalance : Balance := ⟨[("USDT", 1)]⟩

/-- Sample observation sequence for one monitoring session: one transient
error, one missing-position poll, then the position at market price
60 (PnL 10). -/
def samplePolls : List PositionMonitor.PollOutcome :=
  [.fetchError, .noPosition, .found samplePosition 60]

/-- The signal `samplePolls` fires at threshold 1. -/
def sampleSignal : PositionMonitor.Signal :=
  { position := samplePosition
    pnl := ExchangeClient.calculate_position_pnl samplePosition 60
    monitoring_at_callback := false }

/-- C1 counterexample: from `IDLE`, requesting the table-invalid next state
`WITHDRAWING` is accepted by `set_state` — the current state changes to
`WITHDRAWING` and no `InvalidTransition` error exists (the function is
total), refuting the claim that the request fails and leaves the state
unchanged. -/
theorem C1_counterexample :
    (StateManager.init.set_state BotState.withdrawing).current_state
        = BotState.withdrawing
      ∧ specTableAllows BotState.idle BotState.withdrawing = false
      ∧ StateManager.init.current_state = BotState.idle := by
  decide

/-- C1 (amended): `set_state(next)` performs no validation against the
§4.1 transition table: for every current state and every requested next
state — table-reachable or not — it unconditionally assigns the new
state and persists it, and never raises `InvalidTransition`. -/
theorem C1_set_state_accepts_all (m : StateManager) (next : BotState) :
    (m.set_state next).current_state = next
      ∧ (m.set_state next).state_log = m.state_log ++ [next] :=
  ⟨rfl, rfl⟩

/-- C4: when the underlying convert operation fails — whether the quote
request or the quote acceptance raises — `convert_crypto` does not fail
with an `ExchangeError`: it returns the non-error result `None`,
because the `raise ExchangeError(...)` in its `except` block is
commented out in the source. -/
theorem C4_convert_failure_returns_none :
    ExchangeClient.convert_crypto (.exn "network error") (fun _ => .ok sampleConv)
        = none
      ∧ ExchangeClient.convert_crypto (.ok "quote-1") (fun _ => .exn "rejected")
        = none :=
  ⟨rfl, rfl⟩

/-- C6: `can_open_position()` returns true exactly when the current state
is `IDLE` or `RESETTING`. -/
theorem C6_can_open_position_iff (m : StateManager) :
    m.can_open_position = true
      ↔ (m.current_state = BotState.idle ∨ m.current_state = BotState.resetting) := by
  unfold StateManager.can_open_position
  cases m.current_state <;> decide

/-- C8: the computed unrealized PnL is `(current − entry) × contracts` for
a long position and `(entry − current) × contracts` for a short one. -/
theorem C8_pnl_formula (position : Position) (current_price : ℚ) :
    (position.side = "long" →
      ExchangeClient.calculate_position_pnl position current_price
        = (current_price - position.entryPrice) * position.contracts)
    ∧ (position.side = "short" →
      ExchangeClient.calculate_position_pnl position current_price
        = (position.entryPrice - current_price) * position.contracts) := by
  constructor
  · intro h
    simp [ExchangeClient.calculate_position_pnl, h]
  · intro h
    simp [ExchangeClient.calculate_position_pnl, h]

/-- C8 witness: evaluating the formula on a concrete long position and a
concrete short position. -/
theorem C8_pnl_formula_witness :
    (samplePosition.side = "long"
      ∧ ExchangeClient.calculate_position_pnl samplePosition 60
          = (60 - samplePosition.entryPrice) * samplePosition.contracts) :=
  ⟨rfl, (C8_pnl_formula samplePosition 60).1 rfl⟩

/-- C9: serializing a `TradingConfig` with `to_dict` and re-parsing with
`from_dict` reconstructs all eight fields, and `BotState(state.value)`
reconstructs the identical state member. -/
theorem C9_roundtrip (c : TradingConfig) (s : BotState) :
    TradingConfig.from_dict (TradingConfig.to_dict c) = c
      ∧ BotState.ofValue (BotState.value s) = some s := by
  constructor
  · obtain ⟨sym, sd, q, lv, mm, pt, ep, poa⟩ := c
    cases poa with
    | none => simp [TradingConfig.to_dict, TradingConfig.from_dict]
    | some d =>
      obtain ⟨sv, hv⟩ := d
      simp [TradingConfig.to_dict, TradingConfig.from_dict,
            ISODate.isoformat, ISODate.fromisoformat, hv]
  · cases s <;> rfl

/-- C5: from every starting manager, `auto_reset` passes through
`RESETTING`, terminates in `IDLE`, clears the pending closed-position
record, and leaves the dynamic fields of whatever `TradingConfig` it
holds cleared to none. -/
theorem C5_auto_reset (m : StateManager) :
    m.auto_reset.current_state = BotState.idle
      ∧ m.auto_reset.last_closed_position = none
      ∧ m.auto_reset.state_log = m.state_log ++ [BotState.resetting, BotState.idle]
      ∧ ∀ c, m.auto_reset.trading_config = some c →
          (c.entry_price = none ∧ c.position_opened_at = none) := by
  refine ⟨rfl, rfl, ?_, ?_⟩
  · simp [StateManager.auto_reset, StateManager.set_state]
  · intro c hc
    have h0 : m.auto_reset.trading_config = m.trading_config.map TradingConfig.reset := rfl
    rw [h0] at hc
    cases hcfg : m.trading_config with
    | none => rw [hcfg] at hc; exact absurd hc (by simp)
    | some c0 =>
      rw [hcfg] at hc
      simp only [Option.map_some', Option.some.injEq] at hc
      subst hc
      exact ⟨rfl, rfl⟩

/-- C5 witness: auto-resetting the sample mid-cycle manager ends idle with
the dynamic config fields cleared. -/
theorem C5_auto_reset_witness :
    sampleManager.auto_reset.trading_config = some (TradingConfig.reset sampleConfig)
      ∧ ((TradingConfig.reset sampleConfig).entry_price = none
          ∧ (TradingConfig.reset sampleConfig).position_opened_at = none) :=
  ⟨rfl, (C5_auto_reset sampleManager).2.2.2 (TradingConfig.reset sampleConfig) rfl⟩

/-- C7: `check_liquidation` returns true exactly when total USDT equity is
strictly below 1.0 and the open-position count is zero; equity exactly
1.0 yields false. -/
theorem C7_check_liquidation_iff (balance : Balance) (fetched : List Position) :
    (PositionMonitor.check_liquidation balance fetched = true
      ↔ (balance.totalOf "USDT" < 1
          ∧ (ExchangeClient.get_open_positions fetched).length = 0))
    ∧ (balance.totalOf "USDT" = 1 →
        PositionMonitor.check_liquidation balance fetched = false) := by
  constructor
  · simp [PositionMonitor.check_liquidation]
  · intro h
    simp [PositionMonitor.check_liquidation, h]

/-- C7 witness: at exactly 1 USDT of equity and no positions, the
liquidation check is false (exclusive boundary). -/
theorem C7_check_liquidation_witness :
    sampleBalance.totalOf "USDT" = 1
      ∧ PositionMonitor.check_liquidation sampleBalance [] = false :=
  ⟨rfl, (C7_check_liquidation_iff sampleBalance []).2 rfl⟩

/-- C10: `position_closed` requires an active position: with none present
it raises before any state change (modelled as `none`), and with one
present it completes, clears the active position, records the merged
closed record, and transitions to `CONVERTING`. -/
theorem C10_position_closed_requires_active (m : StateManager)
    (close_data : CloseData) (profit : ℚ) (now : ISODate) :
    (m.active_position = none → m.position_closed close_data profit now = none)
    ∧ (∀ ap, m.active_position = some ap →
        ∃ m', m.position_closed close_data profit now = some m'
          ∧ m'.active_position = none
          ∧ m'.current_state = BotState.converting
          ∧ ∃ r, m'.last_closed_position = some r
              ∧ r.position = ap ∧ r.profit = profit) := by
  constructor
  · intro h
    unfold StateManager.position_closed
    rw [h]
  · intro ap h
    unfold StateManager.position_closed
    rw [h]
    exact ⟨_, rfl, rfl, rfl, _, rfl, rfl, rfl⟩

/-- C10 witness: a fresh manager (no active position) makes
`position_closed` raise, while the sample mid-cycle manager completes
and lands in `CONVERTING`. -/
theorem C10_position_closed_witness :
    StateManager.init.position_closed sampleClose 5 sampleNow = none
      ∧ ∃ m', sampleManager.position_closed sampleClose 5 sampleNow = some m'
          ∧ m'.active_position = none
          ∧ m'.current_state = BotState.converting
          ∧ ∃ r, m'.last_closed_position = some r
              ∧ r.position = samplePosition ∧ r.profit = 5 :=
  ⟨(C10_position_closed_requires_active StateManager.init sampleClose 5 sampleNow).1 rfl,
   (C10_position_closed_requires_active sampleManager sampleClose 5 sampleNow).2
     samplePosition rfl⟩

/-- C2: over any finite observation sequence of one monitoring session,
the signal callback is invoked at most once, every invocation happens
at a poll whose computed PnL satisfies `pnl ≥ threshold`, and the
worker has cleared its monitoring flag before the callback runs. -/
theorem C2_signal_at_most_once (profit_threshold : ℚ)
    (polls : List PositionMonitor.PollOutcome) :
    (PositionMonitor.monitor_loop profit_threshold polls).length ≤ 1
      ∧ ∀ sig, sig ∈ PositionMonitor.monitor_loop profit_threshold polls →
          (profit_threshold ≤ sig.pnl ∧ sig.monitoring_at_callback = false) := by
  induction polls with
  | nil =>
    exact ⟨by simp [PositionMonitor.monitor_loop],
           by simp [PositionMonitor.monitor_loop]⟩
  | cons o rest ih =>
    cases o with
    | stopped => simp [PositionMonitor.monitor_loop]
    | fetchError => simpa [PositionMonitor.monitor_loop] using ih
    | noPosition => simpa [PositionMonitor.monitor_loop] using ih
    | found p price =>
      by_cases h : profit_threshold ≤ ExchangeClient.calculate_position_pnl p price
      · refine ⟨by simp [PositionMonitor.monitor_loop, h], ?_⟩
        intro sig hsig
        simp [PositionMonitor.monitor_loop, h] at hsig
        subst hsig
        exact ⟨h, rfl⟩
      · simpa [PositionMonitor.monitor_loop, h] using ih

/-- C2 witness: at threshold 1 the sample session fires exactly one signal,
whose PnL of 10 meets the threshold, with the monitoring flag already
cleared. -/
theorem C2_signal_at_most_once_witness :
    (PositionMonitor.monitor_loop 1 samplePolls).length ≤ 1
      ∧ (1 ≤ sampleSignal.pnl ∧ sampleSignal.monitoring_at_callback = false) :=
  ⟨(C2_signal_at_most_once 1 samplePolls).1,
   (C2_signal_at_most_once 1 samplePolls).2 sampleSignal (by
     norm_num [PositionMonitor.monitor_loop, ExchangeClient.calculate_position_pnl,
               samplePolls, samplePosition, sampleSignal])⟩

/-- C3 counterexample: a full pipeline run on the sample mid-cycle manager
with a successful close, a successful conversion, and a failed (or
skipped) withdrawal completes — the cycle ends in `IDLE` — yet appends
nothing to `trade_history`, refuting the claim that one record is
appended whether or not the withdrawal succeeded. -/
theorem C3_counterexample :
    (TradingBot.on_profit_reached sampleManager 10 sampleNow
        ⟨some sampleClose, some sampleConv, none⟩).trade_history.length
        = sampleManager.trade_history.length
      ∧ (TradingBot.on_profit_reached sampleManager 10 sampleNow
          ⟨some sampleClose, some sampleConv, none⟩).current_state
        = BotState.idle :=
  ⟨rfl, rfl⟩

/-- C3 (amended): for every pipeline run following a successful position
close, a `ClosedPositionRecord` is appended to `TradeHistory` exactly
when the withdrawal step returned a successful result: then exactly one
record is appended — after the withdrawal completes, carrying its
result, and carrying the conversion result only when that step
succeeded (none when it failed) — while a failed or skipped withdrawal
appends nothing. -/
theorem C3_history_grows_iff_withdrawal (m : StateManager) (profit : ℚ)
    (now : ISODate) (close : CloseData) (conv : Option ConvData) (wd : WdData)
    (ap : Position) (hap : m.active_position = some ap) :
    ((TradingBot.on_profit_reached m profit now
        ⟨some close, conv, some wd⟩).trade_history.length
        = m.trade_history.length + 1
      ∧ ∃ r, (TradingBot.on_profit_reached m profit now
            ⟨some close, conv, some wd⟩).trade_history.getLast? = some (some r)
          ∧ r.withdrawal = some wd ∧ r.conversion = conv)
    ∧ (TradingBot.on_profit_reached m profit now
        ⟨some close, conv, none⟩).trade_history.length
        = m.trade_history.length := by
  constructor
  · constructor
    · cases conv <;>
        simp [TradingBot.on_profit_reached, StateManager.position_closed, hap,
              StateManager.set_state, StateManager.conversion_completed,
              StateManager.withdrawal_completed, StateManager.auto_reset]
    · cases conv with
      | none =>
        refine ⟨{ position := ap, close := close, profit := profit,
                  closed_at := now, conversion := none,
                  withdrawal := some wd }, ?_, rfl, rfl⟩
        simp [TradingBot.on_profit_reached, StateManager.position_closed, hap,
              StateManager.set_state, StateManager.conversion_completed,
              StateManager.withdrawal_completed, StateManager.auto_reset,
              List.getLast?_concat]
      | some c =>
        refine ⟨{ position := ap, close := close, profit := profit,
                  closed_at := now, conversion := some c,
                  withdrawal := some wd }, ?_, rfl, rfl⟩
        simp [TradingBot.on_profit_reached, StateManager.position_closed, hap,
              StateManager.set_state, StateManager.conversion_completed,
              StateManager.withdrawal_completed, StateManager.auto_reset,
              List.getLast?_concat]
  · cases conv <;>
      simp [TradingBot.on_profit_reached, StateManager.position_closed, hap,
            StateManager.set_state, StateManager.conversion_completed,
            StateManager.withdrawal_completed, StateManager.auto_reset]

/-- C3 witness: on the sample mid-cycle manager, a run with failed
conversion but successful withdrawal appends exactly one record, which
carries the withdrawal result and no conversion field; a run with
failed withdrawal appends nothing. -/
theorem C3_history_grows_iff_withdrawal_witness :
    ((TradingBot.on_profit_reached sampleManager 10 sampleNow
        ⟨some sampleClose, none, some sampleWd⟩).trade_history.length
        = sampleManager.trade_history.length + 1
      ∧ ∃ r, (TradingBot.on_profit_reached sampleManager 10 sampleNow
            ⟨some sampleClose, none, some sampleWd⟩).trade_history.getLast?
            = some (some r)
          ∧ r.withdrawal = some sampleWd ∧ r.conversion = none)
    ∧ (TradingBot.on_profit_reached sampleManager 10 sampleNow
        ⟨some sampleClose, none, none⟩).trade_history.length
        = sampleManager.trade_history.length :=
  C3_history_grows_iff_withdrawal sampleManager 10 sampleNow sampleClose none
    sampleWd samplePosition rfl

end Bybit
